import Mathlib

/-!
Verification of the message-purging client in src/nuke-slack.py against its
specification. The Python program is shallowly embedded: the environment
(server responses) is passed explicitly as data, global mutable state (the
shared retry delay, the completion cache) becomes explicit state threading,
and the unbounded `while True` loops are driven by the finite list of
responses the server supplies, with an `Option`/flag marking a loop that is
still running when the supplied responses are exhausted.
-/

namespace NukeSlack

/-- Constant from src/nuke-slack.py line 7: the starting retry delay. -/
def INITIAL_RETRY_DELAY : Nat := 2

/-- Constant from src/nuke-slack.py line 8: the retry-delay cap. -/
def MAX_RETRY_DELAY : Nat := 300

/-- Outcome of one API response as seen by the retry logic: either the body
carried error == "ratelimited", or anything else. -/
inductive Outcome where
  | ratelimited
  | other
deriving DecidableEq

/-- Embeds the update of `current_retry_delay` performed by one iteration of
`slack_api_call` (src/nuke-slack.py lines 61-68): on a rate-limited body the
delay doubles, capped at `MAX_RETRY_DELAY` (line 62); on any other body it is
floor-halved when it is at least 2 and left unchanged otherwise
(lines 67-68). -/
def retryStep (d : Nat) : Outcome → Nat
  | Outcome.ratelimited => min (d * 2) MAX_RETRY_DELAY
  | Outcome.other => if 2 ≤ d then d / 2 else d

/-- The shared `current_retry_delay` after the process has handled a sequence
of API outcomes, starting from `INITIAL_RETRY_DELAY` (line 11). -/
def retryDelayAfter (os : List Outcome) : Nat :=
  os.foldl retryStep INITIAL_RETRY_DELAY

/-- Embeds `slack_api_call` (src/nuke-slack.py lines 48-71). The network is
the list of decoded response bodies the server would return to the successive
requests; `err` extracts a body's "error" field. Returns the list of delays
slept (line 64, one per rate-limited body, each equal to the just-doubled
delay), the final `current_retry_delay`, and the returned body (`none` when
every supplied body was rate-limited, i.e. the loop is still running). -/
def slack_api_call {α : Type} (err : α → Option String) :
    Nat → List α → List Nat × Nat × Option α
  | d, [] => ([], d, none)
  | d, r :: rs =>
    if err r = some "ratelimited" then
      let d2 := retryStep d Outcome.ratelimited
      let rest := slack_api_call err d2 rs
      (d2 :: rest.1, rest.2.1, rest.2.2)
    else
      ([], retryStep d Outcome.other, some r)

/-- Identity extractor: a response modelled as just its "error" field. -/
def idErr (e : Option String) : Option String := e

/-- A rate-limited response body, as tested on line 61. -/
def rlResp : Option String := some "ratelimited"

/-- Delay value after `k` further consecutive rate-limited responses. -/
def rlIter (d : Nat) : Nat → Nat
  | 0 => d
  | k + 1 => retryStep (rlIter d k) Outcome.ratelimited

/-- The delays slept during `n` consecutive rate-limited responses starting
from delay `d`. -/
def sleepList : Nat → Nat → List Nat
  | _, 0 => []
  | d, n + 1 =>
    retryStep d Outcome.ratelimited ::
      sleepList (retryStep d Outcome.ratelimited) n

lemma retryStep_bounds (d : Nat) (o : Outcome) (h1 : 1 ≤ d)
    (h2 : d ≤ MAX_RETRY_DELAY) :
    1 ≤ retryStep d o ∧ retryStep d o ≤ MAX_RETRY_DELAY := by
  cases o with
  | ratelimited =>
    simp only [retryStep, MAX_RETRY_DELAY] at *
    omega
  | other =>
    simp only [retryStep, MAX_RETRY_DELAY] at *
    split <;> omega

lemma foldl_retryStep_bounds :
    ∀ (os : List Outcome) (d : Nat), 1 ≤ d → d ≤ MAX_RETRY_DELAY →
      1 ≤ os.foldl retryStep d ∧ os.foldl retryStep d ≤ MAX_RETRY_DELAY := by
  intro os
  induction os with
  | nil => intro d h1 h2; simpa using ⟨h1, h2⟩
  | cons o os ih =>
    intro d h1 h2
    have hb := retryStep_bounds d o h1 h2
    simpa [List.foldl_cons] using ih (retryStep d o) hb.1 hb.2

lemma retryDelayAfter_bounds (os : List Outcome) :
    1 ≤ retryDelayAfter os ∧ retryDelayAfter os ≤ MAX_RETRY_DELAY :=
  foldl_retryStep_bounds os INITIAL_RETRY_DELAY (by decide) (by decide)

lemma rlIter_shift (d : Nat) :
    ∀ k, rlIter (retryStep d Outcome.ratelimited) k = rlIter d (k + 1)
  | 0 => rfl
  | k + 1 =>
    congrArg (fun x => retryStep x Outcome.ratelimited) (rlIter_shift d k)

lemma slack_sleeps :
    ∀ (n : Nat) (d : Nat) (r : Option String), r ≠ some "ratelimited" →
      ∀ rest, (slack_api_call idErr d (List.replicate n rlResp ++ r :: rest)).1
        = sleepList d n := by
  intro n
  induction n with
  | zero =>
    intro d r hr rest
    simp [slack_api_call, idErr, hr, sleepList]
  | succ n ih =>
    intro d r hr rest
    simp only [List.replicate_succ, List.cons_append, slack_api_call, idErr,
      rlResp, if_pos, sleepList]
    exact congrArg (List.cons (retryStep d Outcome.ratelimited))
      (ih (retryStep d Outcome.ratelimited) r hr rest)

lemma sleepList_get :
    ∀ (n : Nat) (d : Nat) (k : Nat), k < n →
      (sleepList d n).get? k = some (rlIter d (k + 1)) := by
  intro n
  induction n with
  | zero => intro d k hk; omega
  | succ n ih =>
    intro d k hk
    cases k with
    | zero => simp [sleepList, rlIter]
    | succ k =>
      simp only [sleepList, List.get?_cons_succ]
      rw [ih (retryStep d Outcome.ratelimited) k (by omega)]
      rw [rlIter_shift]

lemma rlIter_closed :
    ∀ k, rlIter INITIAL_RETRY_DELAY (k + 1)
      = min (INITIAL_RETRY_DELAY * 2 ^ (k + 1)) MAX_RETRY_DELAY := by
  intro k
  induction k with
  | zero => decide
  | succ k ih =>
    show retryStep (rlIter INITIAL_RETRY_DELAY (k + 1)) Outcome.ratelimited = _
    rw [ih]
    simp only [retryStep, INITIAL_RETRY_DELAY, MAX_RETRY_DELAY, pow_succ]
    have h : ∀ A : Nat, min (min (2 * A) 300 * 2) 300 = min (2 * (A * 2)) 300 := by
      intro A; omega
    exact h (2 ^ (k + 1))

/-- C1 counterexample: the spec says the shared retry delay never goes below
the initial value 2, but a single non-rate-limited outcome at the initial
delay floor-halves it to 1 (line 67 tests `>= 2`, which holds at 2). -/
theorem C1_counterexample :
    retryDelayAfter [Outcome.other] = 1 ∧ 1 < INITIAL_RETRY_DELAY := by
  decide

/-- C1 (amended): for every sequence of API call outcomes the shared retry
delay stays within [1, MAX_RETRY_DELAY]: it doubles (capped at 300) on each
rate-limited response, is floor-halved on another outcome only when it is at
least 2 (so a success at the initial value 2 takes it to 1), and is left
unchanged below 2; it can fall below the initial value 2 but never below 1. -/
theorem C1_amended :
    (∀ os : List Outcome,
        1 ≤ retryDelayAfter os ∧ retryDelayAfter os ≤ MAX_RETRY_DELAY) ∧
    (∀ d, retryStep d Outcome.ratelimited = min (d * 2) MAX_RETRY_DELAY) ∧
    (∀ d, 2 ≤ d → retryStep d Outcome.other = d / 2) ∧
    (∀ d, d < 2 → retryStep d Outcome.other = d) := by
  refine ⟨retryDelayAfter_bounds, fun d => rfl, ?_, ?_⟩
  · intro d hd
    simp [retryStep, hd]
  · intro d hd
    simp [retryStep]
    omega

/-- C9: for every sequence of API call outcomes the shared retry delay is at
least 1 and at most 300; a non-rate-limited outcome at the initial value 2
halves it to 1, a further such outcome leaves it at 1, so the delay can sit
strictly below the initial value but never reaches 0. -/
theorem C9_delay_floor_one :
    (∀ os : List Outcome, 1 ≤ retryDelayAfter os ∧ retryDelayAfter os ≤ 300) ∧
    retryStep INITIAL_RETRY_DELAY Outcome.other = 1 ∧
    retryStep 1 Outcome.other = 1 ∧
    retryDelayAfter [Outcome.other] = 1 ∧
    retryDelayAfter [Outcome.other] < INITIAL_RETRY_DELAY := by
  refine ⟨fun os => retryDelayAfter_bounds os, by decide, by decide, by decide,
    by decide⟩

/-- C2 counterexample: the spec says the delay slept before the (k+1)-th
retry is min(2 * 2^k, 300), so the first sleep would be 2 seconds; the code
doubles the delay before sleeping (lines 62-64), so the first sleep is 4. -/
theorem C2_counterexample :
    (slack_api_call idErr INITIAL_RETRY_DELAY [rlResp, none]).1.get? 0
      = some 4 ∧
    min (INITIAL_RETRY_DELAY * 2 ^ 0) MAX_RETRY_DELAY = 2 := by
  decide

/-- C2 (amended): for N consecutive rate-limited responses starting from the
initial delay, the delay slept before the (k+1)-th retry is
min(initial * 2^(k+1), max) = min(2 * 2^(k+1), 300) — the delay is doubled
before it is slept — and this sequence is non-decreasing in k. -/
theorem C2_amended (N k : Nat) (hk : k < N) (r : Option String)
    (hr : r ≠ some "ratelimited") :
    (slack_api_call idErr INITIAL_RETRY_DELAY
        (List.replicate N rlResp ++ r :: [])).1.get? k
      = some (min (INITIAL_RETRY_DELAY * 2 ^ (k + 1)) MAX_RETRY_DELAY) ∧
    ∀ j, j ≤ k →
      min (INITIAL_RETRY_DELAY * 2 ^ (j + 1)) MAX_RETRY_DELAY
        ≤ min (INITIAL_RETRY_DELAY * 2 ^ (k + 1)) MAX_RETRY_DELAY := by
  constructor
  · rw [slack_sleeps N INITIAL_RETRY_DELAY r hr []]
    rw [sleepList_get N INITIAL_RETRY_DELAY k hk, rlIter_closed k]
  · intro j hj
    have hp : (2 : Nat) ^ (j + 1) ≤ 2 ^ (k + 1) :=
      Nat.pow_le_pow_right (by omega) (by omega)
    have hmin : ∀ A B : Nat, A ≤ B → min (2 * A) 300 ≤ min (2 * B) 300 := by
      intro A B h; omega
    simpa [INITIAL_RETRY_DELAY, MAX_RETRY_DELAY] using hmin _ _ hp

/-- C2 witness: concrete instance with two rate-limited responses, reading
the delay slept before the second retry. -/
theorem C2_witness :
    (slack_api_call idErr INITIAL_RETRY_DELAY
        (List.replicate 2 rlResp ++ none :: [])).1.get? 1
      = some (min (INITIAL_RETRY_DELAY * 2 ^ 2) MAX_RETRY_DELAY) :=
  (C2_amended 2 1 (by omega) none (by simp)).1

/-- C6: `slack_api_call` retries (sleeping once per retry) exactly while the
response body carries error == "ratelimited", and returns the first body that
does not, unchanged, whatever it is — no other error is retried at this
layer, and the outcome is an ordinary return value. -/
theorem C6_retry_exactly_ratelimited {α : Type} (err : α → Option String)
    (d : Nat) (rls : List α) (r : α) (rest : List α)
    (hall : ∀ x ∈ rls, err x = some "ratelimited")
    (hr : err r ≠ some "ratelimited") :
    (slack_api_call err d (rls ++ r :: rest)).2.2 = some r ∧
    (slack_api_call err d (rls ++ r :: rest)).1.length = rls.length := by
  revert hall
  induction rls generalizing d with
  | nil =>
    intro hall
    simp [slack_api_call, hr]
  | cons x xs ih =>
    intro hall
    have hx : err x = some "ratelimited" := hall x (List.mem_cons_self x xs)
    have h2 := ih (retryStep d Outcome.ratelimited)
      (fun y hy => hall y (List.mem_cons_of_mem x hy))
    simp only [List.cons_append, slack_api_call, hx, if_pos]
    exact ⟨h2.1, by simp [h2.2]⟩

/-- C6 witness: one rate-limited body followed by a `none` error field; the
call sleeps once and returns the second body. -/
theorem C6_witness :
    (slack_api_call idErr 2 ([rlResp] ++ none :: [some "oops"])).2.2
      = some none ∧
    (slack_api_call idErr 2 ([rlResp] ++ none :: [some "oops"])).1.length
      = 1 :=
  C6_retry_exactly_ratelimited idErr 2 [rlResp] none [some "oops"]
    (by simp [rlResp, idErr]) (by simp [idErr])

/-- Python truthiness of an optional string field fetched with `.get`:
`None` and the empty string are falsy, any other string is truthy. Used for
`msg.get("subtype")` (line 143) and for the pagination cursors
(lines 161 and 192). -/
def truthy : Option String → Bool
  | none => false
  | some s => !(s == "")

/-- A message record as inspected by `delete_messages_in_channel`
(lines 133-157): its "ts", "user" and "subtype" fields (absent fields are
`none`) and its "text". -/
structure Message where
  ts : Option String
  user : Option String
  subtype : Option String
  text : String
deriving DecidableEq

/-- The decoded body of a `chat.delete` response as inspected on
lines 149-157: its "ok" flag and optional "error" reason. -/
structure DeleteResult where
  ok : Bool
  error : Option String
deriving DecidableEq

/-- The decoded body of a `conversations.history` page as inspected on
lines 121-161: "ok" flag, optional "error", "messages" list, and the
"next_cursor" from "response_metadata". -/
structure HistoryPage where
  ok : Bool
  error : Option String
  messages : List Message
  next_cursor : Option String
deriving DecidableEq

/-- Embeds the body of the per-message loop (lines 133-157) for one message.
`delO` is the environment giving the `chat.delete` response a delete request
for this message would receive. Returns (increment of `deleted`, increment of
`skipped`, whether a delete request was issued). -/
def messageStep (my_user_id : String) (delO : Message → DeleteResult)
    (msg : Message) : Nat × Nat × Bool :=
  if msg.user ≠ some my_user_id then (0, 1, false)
  else if truthy msg.subtype then (0, 1, false)
  else
    let delete_result := delO msg
    if delete_result.ok then (1, 0, true)
    else if delete_result.error = some "cant_delete_message" then (0, 1, true)
    else (0, 0, true)

/-- The (deleted, skipped) increments contributed by one page's message list
(the `for msg in messages` loop, lines 133-157). -/
def processMessages (my_user_id : String) (delO : Message → DeleteResult) :
    List Message → Nat × Nat
  | [] => (0, 0)
  | m :: ms =>
    let r := messageStep my_user_id delO m
    let rest := processMessages my_user_id delO ms
    (r.1 + rest.1, r.2.1 + rest.2)

/-- Embeds `delete_messages_in_channel` (lines 112-165). The environment is
the list of `conversations.history` bodies the successive `get_messages`
calls receive, plus the delete-response environment `delO`; the first
argument is the cursor the next request would carry (initially `none`,
line 116). Returns the (deleted, skipped) totals the function returns —
`none` when the supplied pages ran out while the loop still wanted another
page — and the list of cursors the issued history requests carried. -/
def delete_messages_in_channel (my_user_id : String)
    (delO : Message → DeleteResult) :
    Option String → List HistoryPage →
      Option (Nat × Nat) × List (Option String)
  | _, [] => (none, [])
  | c, p :: ps =>
    if p.ok = false then (some (0, 0), [c])
    else if p.messages = [] then (some (0, 0), [c])
    else
      let k := processMessages my_user_id delO p.messages
      if truthy p.next_cursor = false then (some k, [c])
      else
        let r := delete_messages_in_channel my_user_id delO p.next_cursor ps
        (r.1.map (fun q => (k.1 + q.1, k.2 + q.2)), c :: r.2)

/-- C4: a delete request is issued for a message exactly when its "user"
field equals the resolved identity and its subtype is empty or absent; every
message failing either condition is counted as skipped (and not deleted) with
no delete call. -/
theorem C4_ownership_filter (my_user_id : String)
    (delO : Message → DeleteResult) (msg : Message) :
    ((messageStep my_user_id delO msg).2.2 = true
      ↔ (msg.user = some my_user_id ∧ truthy msg.subtype = false)) ∧
    (¬ (msg.user = some my_user_id ∧ truthy msg.subtype = false)
      → messageStep my_user_id delO msg = (0, 1, false)) := by
  by_cases hu : msg.user = some my_user_id
  · by_cases hs : truthy msg.subtype
    · simp [messageStep, hu, hs]
    · by_cases hok : (delO msg).ok
      · simp [messageStep, hu, hs, hok]
      · by_cases he : (delO msg).error = some "cant_delete_message"
        · simp [messageStep, hu, hs, hok, he]
        · simp [messageStep, hu, hs, hok, he]
  · simp [messageStep, hu]

/-- C7: for a message the ownership filter lets through, a successful delete
counts it as deleted; a failed delete with reason "cant_delete_message"
counts it as skipped; a failed delete with any other reason counts it in
neither bucket. -/
theorem C7_delete_outcomes (my_user_id : String)
    (delO : Message → DeleteResult) (msg : Message)
    (hu : msg.user = some my_user_id) (hs : truthy msg.subtype = false) :
    ((delO msg).ok = true → messageStep my_user_id delO msg = (1, 0, true)) ∧
    ((delO msg).ok = false → (delO msg).error = some "cant_delete_message"
      → messageStep my_user_id delO msg = (0, 1, true)) ∧
    ((delO msg).ok = false → (delO msg).error ≠ some "cant_delete_message"
      → messageStep my_user_id delO msg = (0, 0, true)) := by
  refine ⟨?_, ?_, ?_⟩
  · intro hok; simp [messageStep, hu, hs, hok]
  · intro hok he; simp [messageStep, hu, hs, hok, he]
  · intro hok he; simp [messageStep, hu, hs, hok, he]

/-- C7 witness: a message owned by the identity with empty subtype whose
delete succeeds is counted as deleted. -/
theorem C7_witness :
    messageStep "U1" (fun _ => DeleteResult.mk true none)
      (Message.mk (some "1") (some "U1") none "hi") = (1, 0, true) :=
  (C7_delete_outcomes "U1" (fun _ => DeleteResult.mk true none)
    (Message.mk (some "1") (some "U1") none "hi") rfl rfl).1 rfl

/-- C10: a message record carrying no "user" field at all compares unequal to
the resolved identity, so it is counted as skipped and no delete request is
issued, for every non-empty identity. -/
theorem C10_missing_user_skipped (my_user_id : String)
    (_hmy : my_user_id ≠ "") (delO : Message → DeleteResult) (msg : Message)
    (hu : msg.user = none) :
    messageStep my_user_id delO msg = (0, 1, false) := by
  simp [messageStep, hu]

/-- The decoded body of a `conversations.list` page as inspected by `main`
(lines 181-193): "ok" flag, optional "error", "channels" (modelled by their
IDs), and the "next_cursor" from "response_metadata". -/
structure ConvPage where
  ok : Bool
  error : Option String
  channels : List String
  next_cursor : Option String
deriving DecidableEq

/-- Embeds the conversation-enumeration loop of `main` (lines 181-193). The
environment is the list of `conversations.list` bodies the successive
requests receive; the first argument is the cursor the next request would
carry (initially `none`, line 178). Returns the accumulated channel list
(`none` when a page had ok=false, since `main` returns outright and the
accumulated channels are discarded), the cursors the issued requests carried,
and whether the loop exited within the supplied pages (`false` means the
loop still wanted another page). -/
def enumLoop : Option String → List ConvPage →
    Option (List String) × List (Option String) × Bool
  | _, [] => (none, [], false)
  | c, p :: ps =>
    if p.ok = false then (none, [c], true)
    else if truthy p.next_cursor = false then (some p.channels, [c], true)
    else
      let r := enumLoop p.next_cursor ps
      (r.1.map (fun l => p.channels ++ l), c :: r.2.1, r.2.2)

/-- Embeds the per-conversation loop of `main` (lines 206-224): `purge` is
the result of `delete_messages_in_channel` for each conversation ID; the
accumulator holds the cache of processed IDs and the running deleted/skipped
totals. A conversation's ID is added to the cache exactly when its purge pass
deleted nothing (lines 220-222). -/
def mainLoop (purge : String → Nat × Nat) :
    List String → Finset String → Nat → Nat → Finset String × Nat × Nat
  | [], cache, td, ts => (cache, td, ts)
  | cid :: rest, cache, td, ts =>
    let r := purge cid
    let cache2 := if r.1 = 0 then insert cid cache else cache
    mainLoop purge rest cache2 (td + r.1) (ts + r.2)

/-- Embeds lines 198-224 of `main`: filter the enumerated conversations
through the loaded cache (line 199), then run the per-conversation loop. -/
def main_run (purge : String → Nat × Nat) (cache0 : Finset String)
    (all_channels : List String) : Finset String × Nat × Nat :=
  mainLoop purge (all_channels.filter (fun c => decide (c ∉ cache0))) cache0 0 0

/-- A history page on which the purge loop continues: ok, non-empty message
list, and a non-empty next cursor that never changes. -/
def contPageX : HistoryPage :=
  HistoryPage.mk true none [Message.mk (some "1") (some "U1") none "hi"]
    (some "X")

/-- A conversation-list page with no channels but a non-empty, never-changing
next cursor. -/
def emptyConvPageX : ConvPage := ConvPage.mk true none [] (some "X")

/-- The last conversation-list page: ok, no channels, no cursor. -/
def lastConvPage : ConvPage := ConvPage.mk true none [] none

/-- A failed history page (conversation not accessible). -/
def stopPage : HistoryPage :=
  HistoryPage.mk false (some "channel_not_found") [] none

/-- A delete environment whose every response is a success. -/
def delOkAll : Message → DeleteResult := fun _ => DeleteResult.mk true none

/-- A purge oracle returning zero deletions and zero skips. -/
def purgeZero : String → Nat × Nat := fun _ => (0, 0)

/-- A purge oracle returning zero deletions and five skips. -/
def purgeZeroFive : String → Nat × Nat := fun _ => (0, 5)

/-- The purge page-loop continues past a page exactly when the page is ok,
has messages, and carries a truthy next cursor (lines 121, 130, 161). -/
def purgeCont (p : HistoryPage) : Prop :=
  p.ok = true ∧ p.messages ≠ [] ∧ truthy p.next_cursor = true

/-- The enumeration loop continues past a page exactly when the page is ok
and carries a truthy next cursor (lines 184, 192); an empty channel list does
not stop it. -/
def enumCont (p : ConvPage) : Prop :=
  p.ok = true ∧ truthy p.next_cursor = true

instance (p : HistoryPage) : Decidable (purgeCont p) := by
  unfold purgeCont; infer_instance

instance (p : ConvPage) : Decidable (enumCont p) := by
  unfold enumCont; infer_instance

lemma mem_mainLoop (purge : String → Nat × Nat) (c : String) :
    ∀ (l : List String) (cache : Finset String) (td ts : Nat),
      (c ∈ (mainLoop purge l cache td ts).1
        ↔ c ∈ cache ∨ (c ∈ l ∧ (purge c).1 = 0)) := by
  intro l
  induction l with
  | nil => intro cache td ts; simp [mainLoop]
  | cons cid rest ih =>
    intro cache td ts
    simp only [mainLoop]
    rw [ih]
    by_cases hc : c = cid
    · subst hc
      by_cases h : (purge c).1 = 0
      · simp [h, Finset.mem_insert]
      · simp [h, List.mem_cons]
    · by_cases h : (purge cid).1 = 0
      · simp [h, Finset.mem_insert, List.mem_cons, hc]
      · simp [h, List.mem_cons, hc]

/-- C3: a conversation ID that is enumerated and not already cached ends up
in the completion cache if and only if its purge pass returned zero
deletions; in particular it is never added when deleted > 0, whatever the
skipped count. -/
theorem C3_cache_iff_zero_deleted (purge : String → Nat × Nat)
    (cache0 : Finset String) (channels : List String) (cid : String)
    (h0 : cid ∉ cache0) (hc : cid ∈ channels) :
    cid ∈ (main_run purge cache0 channels).1 ↔ (purge cid).1 = 0 := by
  unfold main_run
  rw [mem_mainLoop]
  simp [List.mem_filter, h0, hc]

/-- C3 witness: a conversation whose purge pass deleted nothing but skipped
five messages is added to the cache. -/
theorem C3_witness :
    "C1" ∈ (main_run purgeZeroFive ∅ ["C1"]).1 :=
  (C3_cache_iff_zero_deleted purgeZeroFive ∅ ["C1"] "C1"
    (by simp) (by simp)).mpr rfl

lemma purge_pre_cont (my_user_id : String) (delO : Message → DeleteResult)
    (p : HistoryPage) (ps : List HistoryPage) :
    ∀ (pre : List HistoryPage) (c : Option String),
      (∀ q ∈ pre, purgeCont q) → ¬ purgeCont p →
      (∃ r, (delete_messages_in_channel my_user_id delO c
          (pre ++ p :: ps)).1 = some r) ∧
      (delete_messages_in_channel my_user_id delO c
          (pre ++ p :: ps)).2.length = pre.length + 1 := by
  intro pre
  induction pre with
  | nil =>
    intro c _ hp
    unfold purgeCont at hp
    push_neg at hp
    by_cases h1 : p.ok = false
    · simp [delete_messages_in_channel, h1]
    · have hok : p.ok = true := by revert h1; cases p.ok <;> simp
      by_cases h2 : p.messages = []
      · simp [delete_messages_in_channel, h1, h2]
      · have h3 : truthy p.next_cursor = false := by
          have := hp hok h2
          revert this; cases truthy p.next_cursor <;> simp
        simp [delete_messages_in_channel, h1, h2, h3]
  | cons q pre ih =>
    intro c hpre hp
    have hq : purgeCont q := hpre q (List.mem_cons_self q pre)
    obtain ⟨hq1, hq2, hq3⟩ := hq
    have ihr := ih q.next_cursor (fun x hx => hpre x (List.mem_cons_of_mem q hx)) hp
    obtain ⟨⟨r, hr⟩, hlen⟩ := ihr
    constructor
    · refine ⟨((processMessages my_user_id delO q.messages).1 + r.1,
        (processMessages my_user_id delO q.messages).2 + r.2), ?_⟩
      simp only [List.cons_append, delete_messages_in_channel, hq1, hq2, hq3]
      simp [hr]
    · simp only [List.cons_append, delete_messages_in_channel, hq1, hq2, hq3]
      simp [hlen]

lemma purge_unbounded (my_user_id : String) (delO : Message → DeleteResult) :
    ∀ (N : Nat) (c : Option String),
      (delete_messages_in_channel my_user_id delO c
        (List.replicate N contPageX)).1 = none ∧
      (delete_messages_in_channel my_user_id delO c
        (List.replicate N contPageX)).2.length = N := by
  intro N
  induction N with
  | zero => intro c; simp [delete_messages_in_channel]
  | succ N ih =>
    intro c
    have h := ih (contPageX.next_cursor)
    have ht : truthy (some "X") = true := by decide
    simp only [List.replicate_succ, delete_messages_in_channel, contPageX]
    simp only [contPageX] at h
    simp [ht, h.1, h.2]

lemma enum_unbounded :
    ∀ (N : Nat) (c : Option String),
      (enumLoop c (List.replicate N emptyConvPageX)).2.2 = false ∧
      (enumLoop c (List.replicate N emptyConvPageX)).2.1.length = N := by
  intro N
  induction N with
  | zero => intro c; simp [enumLoop]
  | succ N ih =>
    intro c
    have h := ih (emptyConvPageX.next_cursor)
    have ht : truthy (some "X") = true := by decide
    simp only [List.replicate_succ, enumLoop, emptyConvPageX]
    simp only [emptyConvPageX] at h
    simp [ht, h.1, h.2]

lemma enum_pre_cont (p : ConvPage) (ps : List ConvPage) :
    ∀ (pre : List ConvPage) (c : Option String),
      (∀ q ∈ pre, enumCont q) → ¬ enumCont p →
      (enumLoop c (pre ++ p :: ps)).2.2 = true ∧
      (enumLoop c (pre ++ p :: ps)).2.1.length = pre.length + 1 := by
  intro pre
  induction pre with
  | nil =>
    intro c _ hp
    unfold enumCont at hp
    push_neg at hp
    by_cases h1 : p.ok = false
    · simp [enumLoop, h1]
    · have hok : p.ok = true := by revert h1; cases p.ok <;> simp
      have h3 : truthy p.next_cursor = false := by
        have := hp hok
        revert this; cases truthy p.next_cursor <;> simp
      simp [enumLoop, h1, h3]
  | cons q pre ih =>
    intro c hpre hp
    obtain ⟨hq1, hq3⟩ := hpre q (List.mem_cons_self q pre)
    have ihr := ih q.next_cursor (fun x hx => hpre x (List.mem_cons_of_mem q hx)) hp
    simp only [List.cons_append, enumLoop, hq1, hq3]
    simp [ihr.1, ihr.2]

/-- C5 counterexample: a server that keeps answering ok pages with the same
non-empty cursor "X" keeps the purge loop running — after three such pages it
has issued three requests, the last two with the identical cursor, and has
not returned; and the enumeration loop does not stop at an empty page when
that page carries a cursor: it issues a second request. -/
theorem C5_counterexample :
    (delete_messages_in_channel "U1" delOkAll none
      (List.replicate 3 contPageX)).1 = none ∧
    (delete_messages_in_channel "U1" delOkAll none
      (List.replicate 3 contPageX)).2 = [none, some "X", some "X"] ∧
    (enumLoop none [emptyConvPageX, lastConvPage]).2.2 = true ∧
    (enumLoop none [emptyConvPageX, lastConvPage]).2.1.length = 2 := by
  decide

/-- C5 (amended): the purge loop exits at the first page that is not ok, has
no messages, or carries no (falsy) next cursor, issuing one request per page
consumed; the enumeration loop exits at the first page that is not ok or
carries no next cursor — an empty channel page with a cursor does not stop
it; and neither loop guards against an unchanging cursor: a server forever
answering continuing pages with the same cursor draws an unbounded number of
requests (one per page, for every N). -/
theorem C5_amended (my_user_id : String) (delO : Message → DeleteResult)
    (c ec : Option String) (pre : List HistoryPage) (p : HistoryPage)
    (ps : List HistoryPage) (hpre : ∀ q ∈ pre, purgeCont q)
    (hp : ¬ purgeCont p) (epre : List ConvPage) (ep : ConvPage)
    (eps : List ConvPage) (hepre : ∀ q ∈ epre, enumCont q)
    (hep : ¬ enumCont ep) :
    (∃ r, (delete_messages_in_channel my_user_id delO c
        (pre ++ p :: ps)).1 = some r) ∧
    (delete_messages_in_channel my_user_id delO c
        (pre ++ p :: ps)).2.length = pre.length + 1 ∧
    (enumLoop ec (epre ++ ep :: eps)).2.2 = true ∧
    (enumLoop ec (epre ++ ep :: eps)).2.1.length = epre.length + 1 ∧
    (∀ N c2, (delete_messages_in_channel my_user_id delO c2
        (List.replicate N contPageX)).1 = none ∧
      (delete_messages_in_channel my_user_id delO c2
        (List.replicate N contPageX)).2.length = N) ∧
    (∀ N c2, (enumLoop c2 (List.replicate N emptyConvPageX)).2.2 = false ∧
      (enumLoop c2 (List.replicate N emptyConvPageX)).2.1.length = N) := by
  obtain ⟨h1, h2⟩ := purge_pre_cont my_user_id delO p ps pre c hpre hp
  obtain ⟨h3, h4⟩ := enum_pre_cont ep eps epre ec hepre hep
  exact ⟨h1, h2, h3, h4, purge_unbounded my_user_id delO,
    enum_unbounded⟩

/-- C5 witness: with no continuing pages and a failed first history page and
a cursorless first conversation page, each loop issues exactly one request
and exits. -/
theorem C5_witness :
    (delete_messages_in_channel "U1" delOkAll none
        ([] ++ stopPage :: [])).2.length = 0 + 1 ∧
    (enumLoop none ([] ++ lastConvPage :: [])).2.1.length = 0 + 1 :=
  ⟨(C5_amended "U1" delOkAll none none [] stopPage [] (by simp) (by decide)
      [] lastConvPage [] (by simp) (by decide)).2.1,
   (C5_amended "U1" delOkAll none none [] stopPage [] (by simp) (by decide)
      [] lastConvPage [] (by simp) (by decide)).2.2.2.1⟩

lemma purge_zero_deleted (my_user_id : String)
    (delO : Message → DeleteResult) (p : HistoryPage) (ps : List HistoryPage)
    (hok : p.ok = false) :
    ∀ (pre : List HistoryPage) (c : Option String),
      (∀ q ∈ pre, purgeCont q ∧ (processMessages my_user_id delO q.messages).1 = 0) →
      ∃ s, (delete_messages_in_channel my_user_id delO c
        (pre ++ p :: ps)).1 = some (0, s) := by
  intro pre
  induction pre with
  | nil =>
    intro c _
    refine ⟨0, ?_⟩
    simp [delete_messages_in_channel, hok]
  | cons q pre ih =>
    intro c hpre
    obtain ⟨⟨hq1, hq2, hq3⟩, hq0⟩ := hpre q (List.mem_cons_self q pre)
    obtain ⟨s, hs⟩ := ih q.next_cursor
      (fun x hx => hpre x (List.mem_cons_of_mem q hx))
    refine ⟨(processMessages my_user_id delO q.messages).2 + s, ?_⟩
    simp only [List.cons_append, delete_messages_in_channel, hq1, hq2, hq3]
    simp [hs, hq0]

/-- C8: when a history page with ok=false (e.g. an inaccessible conversation)
arrives before any deletion succeeded — every earlier page contributed zero
deletions — the purge returns deleted = 0, so the orchestrator adds the
conversation's ID to the completion cache and it is never re-scanned. -/
theorem C8_failed_fetch_cached (my_user_id : String)
    (delO : Message → DeleteResult) (pre : List HistoryPage)
    (p : HistoryPage) (ps : List HistoryPage)
    (hpre : ∀ q ∈ pre, purgeCont q ∧
      (processMessages my_user_id delO q.messages).1 = 0)
    (hok : p.ok = false) (purge : String → Nat × Nat) (cid : String)
    (hpurge : some (purge cid) = (delete_messages_in_channel my_user_id delO
      none (pre ++ p :: ps)).1)
    (cache0 : Finset String) (channels : List String) (hc : cid ∈ channels) :
    (purge cid).1 = 0 ∧ cid ∈ (main_run purge cache0 channels).1 := by
  obtain ⟨s, hs⟩ := purge_zero_deleted my_user_id delO p ps hok pre none hpre
  rw [hs] at hpurge
  have hz : (purge cid).1 = 0 := by
    have heq : purge cid = (0, s) := Option.some_injective _ hpurge
    rw [heq]
  refine ⟨hz, ?_⟩
  unfold main_run
  rw [mem_mainLoop]
  by_cases h0 : cid ∈ cache0
  · exact Or.inl h0
  · exact Or.inr ⟨List.mem_filter.mpr ⟨hc, by simp [h0]⟩, hz⟩

/-- C8 witness: a conversation whose very first history fetch fails with
"channel_not_found" is added to the completion cache. -/
theorem C8_witness :
    (purgeZero "C1").1 = 0 ∧ "C1" ∈ (main_run purgeZero ∅ ["C1"]).1 :=
  C8_failed_fetch_cached "U1" delOkAll [] stopPage []
    (by simp) rfl purgeZero "C1" (by decide) ∅ ["C1"] (by simp)

/-- C10 witness: concrete message with no "user" field is skipped without a
delete call. -/
theorem C10_witness :
    messageStep "U1" (fun _ => DeleteResult.mk true none)
      (Message.mk (some "1") none none "hi") = (0, 1, false) :=
  C10_missing_user_skipped "U1" (by decide)
    (fun _ => DeleteResult.mk true none)
    (Message.mk (some "1") none none "hi") rfl

end NukeSlack
